import Mathlib

/-!
Verification of the reconciliation and change-orchestration engine of
`lib/ansible/modules/network/exos/exos_config.py`.

Configuration documents are modelled as ordered lists of lines
(`List String`).  `NetworkConfig(contents, ignore_lines=...)` is modelled by
keeping the raw text (`config_text`) as the line list and taking the sha1
fingerprint to be the line list after dropping ignored lines (`filterIgnore`):
two documents have equal sha1 exactly when their filtered texts coincide.
The external line matcher `candidate.difference(config, match, replace)`,
the effect of `load_config` on the device and the effect of the interactive
save command are opaque collaborators, passed in as function parameters
(`difference`, `exec`, `saveEff`).  `dumps(configobjs, 'commands').split('\n')`
on a non-empty object list is modelled as the identity on line lists.
-/

namespace ExosConfig

/-- `match` option of the module: line / strict / exact / none. -/
inductive MatchMode where
  | line
  | strict
  | exact
  | none
  deriving DecidableEq, Repr

/-- `replace` option of the module: line / block. -/
inductive ReplaceMode where
  | line
  | block
  deriving DecidableEq, Repr

/-- `save_when` option: always / never / modified / changed. -/
inductive SaveWhen where
  | always
  | never
  | modified
  | changed
  deriving DecidableEq, Repr

/-- `diff_against` option: running / startup / intended. -/
inductive DiffAgainst where
  | running
  | startup
  | intended
  deriving DecidableEq, Repr

/-- Module parameters (argument_spec of `main`).  Text-valued parameters
(`src` file contents, `running_config`, `intended_config`) are modelled as
their line lists; `none` means the parameter was not supplied.  A supplied
`src`/`running_config`/`intended_config` is assumed non-empty as a string
(so Python truthiness of the parameter itself holds when it is `some`). -/
structure Params where
  lines : Option (List String)
  src : Option (List String)
  before : Option (List String)
  after : Option (List String)
  matchMode : MatchMode
  replace : ReplaceMode
  running_config : Option (List String)
  intended_config : Option (List String)
  backup : Bool
  save_when : SaveWhen
  diff_against : Option DiffAgainst
  diff_ignore_lines : Option (List String)
  deriving DecidableEq, Repr

/-- Device state visible through the connection: running-config and
startup-config texts. -/
structure Device where
  running : List String
  startup : List String
  deriving DecidableEq, Repr

/-- Interactions with the device performed during a run. -/
inductive DevAction where
  | getConfig (source : String)
  | loadConfig (cmds : List String)
  | saveInteractive
  deriving DecidableEq, Repr

/-- The errors raised by AnsibleModule option validation
(mutually_exclusive / required_if in `main`). -/
inductive InputConflict where
  | bothLinesAndSrc
  | requiredOptionMissing (opt : String)
  deriving DecidableEq, Repr

/-- Result record produced by the run (`result` dict of `main`).
`commands`/`updates` are `none` when the key is never set. -/
structure RunResult where
  changed : Bool
  commands : Option (List String)
  updates : Option (List String)
  warnings : List String
  diff : Option (List String × List String)
  backupRaw : Option (List String)
  deriving DecidableEq, Repr

/-- Trace of one whole run of `main`: the validation error if option
validation failed, the result record, the ordered device interactions, and
the final device state. -/
structure RunTrace where
  error : Option InputConflict
  result : RunResult
  actions : List DevAction
  devFinal : Device
  deriving DecidableEq, Repr

/-- Python truthiness of an optional list parameter: an absent parameter and
an empty list are both falsy. -/
def truthy : Option (List String) → Bool
  | some (_ :: _) => true
  | _ => false

/-- `NetworkConfig` with `ignore_lines`: drops every line matching one of the
ignore patterns before fingerprinting; regex patterns are modelled as literal
line matches.  The sha1 of the document is this filtered line list. -/
def filterIgnore (ign : List String) (doc : List String) : List String :=
  doc.filter (fun l => !(ign.contains l))

/-- `get_candidate` (source lines 195-205): load from `src` if supplied,
else from `lines` if truthy. -/
def get_candidate (p : Params) : List String :=
  if p.src.isSome then p.src.getD []
  else if truthy p.lines then p.lines.getD []
  else []

/-- AnsibleModule option validation (source lines 248-258):
`lines`/`src` mutually exclusive; `lines` required when `match` is strict or
exact or `replace` is block; `intended_config` required when
`diff_against=intended`. -/
def validate (p : Params) : Option InputConflict :=
  if p.lines.isSome ∧ p.src.isSome then some InputConflict.bothLinesAndSrc
  else if p.matchMode = MatchMode.strict ∧ p.lines = Option.none then
    some (InputConflict.requiredOptionMissing "lines")
  else if p.matchMode = MatchMode.exact ∧ p.lines = Option.none then
    some (InputConflict.requiredOptionMissing "lines")
  else if p.replace = ReplaceMode.block ∧ p.lines = Option.none then
    some (InputConflict.requiredOptionMissing "lines")
  else if p.diff_against = some DiffAgainst.intended ∧ p.intended_config = Option.none then
    some (InputConflict.requiredOptionMissing "intended_config")
  else Option.none

/-- Condition of source line 268: the running-config is pre-fetched when
`backup` is set or when diff mode targets the running config. -/
def preFetch (diffMode : Bool) (p : Params) : Bool :=
  p.backup || (diffMode && decide (p.diff_against = some DiffAgainst.running))

/-- The `config` variable after source lines 266-272: the pre-push
running-config snapshot when pre-fetched, else None. -/
def preConfig (diffMode : Bool) (p : Params) (dev : Device) : Option (List String) :=
  if preFetch diffMode p then some dev.running else Option.none

/-- Baseline text used by `get_running_config` (source lines 185-192):
the `running_config` parameter if truthy, else the cached `config` snapshot
if present, else a fresh fetch of the device running-config. -/
def matchBase (p : Params) (cfg0 : Option (List String)) (dev : Device) : List String :=
  match p.running_config with
  | some rc => rc
  | Option.none =>
    match cfg0 with
    | some c => c
    | Option.none => dev.running

/-- The assembled body (`configobjs`, source lines 280-284): the matcher
output under the chosen discipline, or the full candidate when `match=none`;
empty when neither `lines` nor `src` is truthy (push block skipped). -/
def pushBody (difference : List String → List String → MatchMode → ReplaceMode → List String)
    (p : Params) (cfg0 : Option (List String)) (dev : Device) : List String :=
  if truthy p.lines || p.src.isSome then
    if p.matchMode = MatchMode.none then get_candidate p
    else difference (get_candidate p) (matchBase p cfg0 dev) p.matchMode p.replace
  else []

/-- The `config` variable after the push block: reassigned to the matcher
baseline when a comparison was made (source line 281), else unchanged. -/
def pushConfigVar (p : Params) (cfg0 : Option (List String)) (dev : Device) :
    Option (List String) :=
  if truthy p.lines || p.src.isSome then
    if p.matchMode = MatchMode.none then cfg0 else some (matchBase p cfg0 dev)
  else cfg0

/-- Device fetches performed by the push block: `get_running_config` fetches
the running config only when neither the `running_config` parameter nor the
cached snapshot supplies the baseline. -/
def pushFetchActions (p : Params) (cfg0 : Option (List String)) : List DevAction :=
  if truthy p.lines || p.src.isSome then
    if p.matchMode = MatchMode.none then []
    else if p.running_config = Option.none ∧ cfg0 = Option.none then
      [DevAction.getConfig "running"]
    else []
  else []

/-- Command assembly (source lines 287-293): start from the body, prepend
`before` if truthy, append `after` if truthy. -/
def assembleCommands (p : Params) (body : List String) : List String :=
  (if truthy p.before then p.before.getD [] else []) ++ body
    ++ (if truthy p.after then p.after.getD [] else [])

/-- Outcome of the push block (source lines 274-304). -/
structure PushOut where
  body : List String
  commands : Option (List String)
  changed : Bool
  dev : Device
  actions : List DevAction
  configVar : Option (List String)
  deriving Repr

/-- The push block of `main` (source lines 274-304): when the assembled body
is non-empty, the commands are assembled, recorded in the result, sent to the
device unless in check mode (`load_config`, guarded by `if commands:`), and
`changed` is set irrespective of check mode; when the body is empty nothing
happens. -/
def pushStep (difference : List String → List String → MatchMode → ReplaceMode → List String)
    (exec : List String → Device → Device) (checkMode : Bool) (p : Params)
    (cfg0 : Option (List String)) (dev : Device) : PushOut :=
  { body := pushBody difference p cfg0 dev
  , commands :=
      if pushBody difference p cfg0 dev = [] then Option.none
      else some (assembleCommands p (pushBody difference p cfg0 dev))
  , changed := if pushBody difference p cfg0 dev = [] then false else true
  , dev :=
      if pushBody difference p cfg0 dev = [] then dev
      else if checkMode then dev
      else if assembleCommands p (pushBody difference p cfg0 dev) = [] then dev
      else exec (assembleCommands p (pushBody difference p cfg0 dev)) dev
  , actions :=
      pushFetchActions p cfg0 ++
        (if pushBody difference p cfg0 dev = [] then []
         else if checkMode then []
         else if assembleCommands p (pushBody difference p cfg0 dev) = [] then []
         else [DevAction.loadConfig (assembleCommands p (pushBody difference p cfg0 dev))])
  , configVar := pushConfigVar p cfg0 dev }

/-- Warning emitted by `save_config` in check mode (source lines 213-215). -/
def saveWarning : String :=
  "Skipping command `save configuration` due to check_mode.  Configuration not copied to non-volatile storage"

/-- Whether the save block calls `save_config` (source lines 311-321):
always under `save_when=always`; under `modified` when the freshly fetched
running and startup fingerprints differ; under `changed` when the push step
reported a change; never under `never`. -/
def saveTriggered (p : Params) (ign : List String) (changedIn : Bool) (dev : Device) : Bool :=
  match p.save_when with
  | SaveWhen.always => true
  | SaveWhen.modified =>
      if filterIgnore ign dev.running = filterIgnore ign dev.startup then false else true
  | SaveWhen.changed => changedIn
  | SaveWhen.never => false

/-- Outcome of the save block (source lines 306-321). -/
structure SaveOut where
  changed : Bool
  warnings : List String
  runningCfg : Option (List String)
  startupCfg : Option (List String)
  dev : Device
  actions : List DevAction
  deriving Repr

/-- The save block of `main` (source lines 306-321), with `save_config`
(source lines 208-215) inlined: when triggered, `result['changed']` is set to
True unconditionally, then the interactive save command is issued unless in
check mode, in which case only a warning is recorded.  `save_when=modified`
fetches running and startup fresh from the device (with `diff_ignore_lines`)
and caches these two documents for the diff block. -/
def saveStep (checkMode : Bool) (saveEff : Device → Device) (p : Params) (ign : List String)
    (changedIn : Bool) (dev : Device) : SaveOut :=
  { changed := if saveTriggered p ign changedIn dev then true else changedIn
  , warnings :=
      if saveTriggered p ign changedIn dev ∧ checkMode = true then [saveWarning] else []
  , runningCfg := if p.save_when = SaveWhen.modified then some dev.running else Option.none
  , startupCfg := if p.save_when = SaveWhen.modified then some dev.startup else Option.none
  , dev :=
      if saveTriggered p ign changedIn dev ∧ checkMode = false then saveEff dev else dev
  , actions :=
      (if p.save_when = SaveWhen.modified then
        [DevAction.getConfig "running", DevAction.getConfig "startup"]
       else []) ++
      (if saveTriggered p ign changedIn dev ∧ checkMode = false then
        [DevAction.saveInteractive]
       else []) }

/-- Warning emitted when `diff_against=running` is requested in check mode
(source line 334). -/
def diffWarning : String :=
  "unable to perform diff against running-config due to check mode"

/-- Running-config text used by the diff block (source lines 324-327): the
document cached by the modified-save check if available, else a fresh fetch. -/
def diffRunText (runningCfg : Option (List String)) (dev : Device) : List String :=
  runningCfg.getD dev.running

/-- Baseline text selected by `diff_against` (source lines 332-346):
`running` → the pre-push `config` snapshot (None in check mode);
`startup` → the cached startup document or a fresh fetch;
`intended` → the `intended_config` parameter;
unset → the `contents` variable keeps the running text (no branch taken). -/
def diffBaseText (checkMode : Bool) (p : Params) (runText : List String)
    (startupCfg configVar : Option (List String)) (dev : Device) : Option (List String) :=
  match p.diff_against with
  | some DiffAgainst.running =>
      if checkMode then Option.none else some (configVar.getD [])
  | some DiffAgainst.startup => some (startupCfg.getD dev.startup)
  | some DiffAgainst.intended => p.intended_config
  | Option.none => some runText

/-- Whether the diff block reports a diff (source lines 348-351): a baseline
was selected and the two post-filter fingerprints differ. -/
def diffReports (checkMode : Bool) (p : Params) (ign : List String)
    (runningCfg startupCfg configVar : Option (List String)) (dev : Device) : Bool :=
  match diffBaseText checkMode p (diffRunText runningCfg dev) startupCfg configVar dev with
  | Option.none => false
  | some bt =>
      if filterIgnore ign (diffRunText runningCfg dev) = filterIgnore ign bt then false
      else true

/-- Outcome of the diff block (source lines 323-362). -/
structure DiffOut where
  changed : Bool
  diff : Option (List String × List String)
  warnings : List String
  actions : List DevAction
  deriving Repr

/-- The diff block of `main` (source lines 323-362): when the fingerprints
differ, `changed` is forced to True and the diff is oriented
running-as-before/baseline-as-after for `intended`, and
baseline-as-before/running-as-after for `startup` and `running` (the
texts reported are the filtered documents, as `str(NetworkConfig)` renders
the parsed items). -/
def diffStep (checkMode : Bool) (p : Params) (ign : List String) (changedIn : Bool)
    (runningCfg startupCfg configVar : Option (List String)) (dev : Device) : DiffOut :=
  { changed :=
      if diffReports checkMode p ign runningCfg startupCfg configVar dev then true
      else changedIn
  , diff :=
      if diffReports checkMode p ign runningCfg startupCfg configVar dev then
        match p.diff_against with
        | some DiffAgainst.intended =>
            some (filterIgnore ign (diffRunText runningCfg dev),
              filterIgnore ign
                ((diffBaseText checkMode p (diffRunText runningCfg dev) startupCfg configVar
                  dev).getD []))
        | _ =>
            some (filterIgnore ign
                ((diffBaseText checkMode p (diffRunText runningCfg dev) startupCfg configVar
                  dev).getD []),
              filterIgnore ign (diffRunText runningCfg dev))
      else Option.none
  , warnings :=
      if p.diff_against = some DiffAgainst.running ∧ checkMode = true then [diffWarning]
      else []
  , actions :=
      (if runningCfg = Option.none then [DevAction.getConfig "running"] else []) ++
      (if p.diff_against = some DiffAgainst.startup ∧ startupCfg = Option.none then
        [DevAction.getConfig "startup"]
       else []) }

/-- The initial result record (`result = {'changed': False}`). -/
def emptyResult : RunResult :=
  { changed := false, commands := Option.none, updates := Option.none, warnings := []
  , diff := Option.none, backupRaw := Option.none }

/-- One whole run of `main` (source lines 218-364), modelling the
orchestration logic from the `result` initialisation on: option validation,
optional backup/diff pre-fetch of the running config, the push block, the
save block and the diff block, threading the device state and recording every
device interaction in order. -/
def mainRun (difference : List String → List String → MatchMode → ReplaceMode → List String)
    (exec : List String → Device → Device) (saveEff : Device → Device)
    (checkMode diffMode : Bool) (p : Params) (dev0 : Device) : RunTrace :=
  match validate p with
  | some e => { error := some e, result := emptyResult, actions := [], devFinal := dev0 }
  | Option.none =>
    let cfg0 := preConfig diffMode p dev0
    let acts0 : List DevAction :=
      if preFetch diffMode p then [DevAction.getConfig "running"] else []
    let backupRaw : Option (List String) :=
      if p.backup then some dev0.running else Option.none
    let po := pushStep difference exec checkMode p cfg0 dev0
    let ign := p.diff_ignore_lines.getD []
    let so := saveStep checkMode saveEff p ign po.changed po.dev
    let dout :=
      if diffMode then
        diffStep checkMode p ign so.changed so.runningCfg so.startupCfg po.configVar so.dev
      else
        { changed := so.changed, diff := Option.none, warnings := [], actions := [] }
    { error := Option.none
    , result :=
        { changed := dout.changed, commands := po.commands, updates := po.commands
        , warnings := so.warnings ++ dout.warnings, diff := dout.diff
        , backupRaw := backupRaw }
    , actions := acts0 ++ po.actions ++ so.actions ++ dout.actions
    , devFinal := so.dev }

/-!
Python name-resolution model for `main` (source lines 218-364).  A name used
by a statement resolves to a local variable when it is assigned anywhere in
the function body (then it must already be bound at use time, else
UnboundLocalError), and otherwise to a module-level global (imports,
module-level definitions and builtins; an unknown global raises NameError).
-/

/-- Kind of a statement of `main`: argument validation (the AnsibleModule
construction), a device interaction, or anything else. -/
inductive StmtKind where
  | validation
  | deviceInteraction
  | other
  deriving DecidableEq, Repr

/-- One (possibly compound) statement of `main`: the names it reads in
evaluation order before any of its own assignments take effect, the local
names it assigns, and its kind. -/
structure PyStmt where
  uses : List String
  assigns : List String
  kind : StmtKind
  deriving DecidableEq, Repr

/-- The body of `main` (source lines 221-364), one entry per (compound)
statement, in order.  Statement 0 is
`connection = Connection(module._socket_path)` inside `try:`; its `except`
clause catches only ConnectionError, so a name-resolution error there
propagates (the handler itself would read `module` and `to_text`, see
`exceptHandlerUses`). -/
def mainBody : List PyStmt :=
  [ { uses := ["Connection", "module"], assigns := ["connection"], kind := StmtKind.other }
  , { uses := ["dict"], assigns := ["argument_spec"], kind := StmtKind.other }
  , { uses := [], assigns := ["mutually_exclusive"], kind := StmtKind.other }
  , { uses := [], assigns := ["required_if"], kind := StmtKind.other }
  , { uses := ["AnsibleModule", "argument_spec", "mutually_exclusive", "required_if"]
    , assigns := ["module"], kind := StmtKind.validation }
  , { uses := [], assigns := ["result"], kind := StmtKind.other }
  , { uses := ["list"], assigns := ["warnings"], kind := StmtKind.other }
  , { uses := ["check_args", "module", "warnings"], assigns := [], kind := StmtKind.other }
  , { uses := ["result", "warnings"], assigns := [], kind := StmtKind.other }
  , { uses := [], assigns := ["config"], kind := StmtKind.other }
  , { uses := ["module", "connection", "NetworkConfig", "result"]
    , assigns := ["contents", "config"], kind := StmtKind.deviceInteraction }
  , { uses := ["any", "module", "get_candidate", "get_running_config", "connection", "dumps",
      "load_config", "result"]
    , assigns := ["match", "replace", "candidate", "config", "configobjs", "commands"]
    , kind := StmtKind.deviceInteraction }
  , { uses := [], assigns := ["running_config", "startup_config"], kind := StmtKind.other }
  , { uses := ["module"], assigns := ["diff_ignore_lines"], kind := StmtKind.other }
  , { uses := ["module", "save_config", "connection", "NetworkConfig", "result"]
    , assigns := ["running_config", "startup_config"], kind := StmtKind.deviceInteraction }
  , { uses := ["module", "connection", "NetworkConfig", "running_config", "startup_config",
      "config", "result", "str"]
    , assigns := ["contents", "running_config", "base_config", "before", "after"]
    , kind := StmtKind.deviceInteraction }
  , { uses := ["module", "result"], assigns := [], kind := StmtKind.other } ]

/-- Names read by the `except ConnectionError` handler of statement 0
(source lines 223-224): `module.fail_json(msg=to_text(exc))`. -/
def exceptHandlerUses : List String := ["module", "to_text"]

/-- Names available at module level in the file: the imports of source lines
172-180, the module-level assignments and function definitions, and the
Python builtins the body uses.  Neither `check_args` nor `to_text` is among
them. -/
def fileGlobals : List String :=
  [ "re", "time", "run_commands", "load_config", "AnsibleModule", "Conditional",
    "NetworkConfig", "dumps", "iteritems", "Connection", "ConnectionError",
    "ANSIBLE_METADATA", "DOCUMENTATION", "EXAMPLES", "RETURN",
    "get_running_config", "get_candidate", "save_config", "main",
    "dict", "list", "any", "str" ]

/-- The local names of a function body: every name assigned by any of its
statements. -/
def localNames (body : List PyStmt) : List String :=
  (body.map PyStmt.assigns).flatten

/-- Whether a name resolves at a program point: a local must already be
bound; any other name must be a known global. -/
def resolves (globals bound locals : List String) (n : String) : Bool :=
  if locals.contains n then bound.contains n else globals.contains n

/-- Walk the statements in order, tracking bound locals; return the index of
the first statement with an unresolvable name, together with that name. -/
def firstFailureAux (globals locals : List String) :
    List PyStmt → List String → Nat → Option (Nat × String)
  | [], _, _ => Option.none
  | s :: rest, bound, i =>
    match s.uses.find? (fun n => !(resolves globals bound locals n)) with
    | some n => some (i, n)
    | Option.none => firstFailureAux globals locals rest (bound ++ s.assigns) (i + 1)

/-- First name-resolution failure in a function body under the given
globals. -/
def firstFailure (globals : List String) (body : List PyStmt) : Option (Nat × String) :=
  firstFailureAux globals (localNames body) body [] 0

/-! Concrete collaborators used by witnesses and counterexamples. -/

/-- A matcher that reports no unmatched lines (converged device). -/
def noDifference : List String → List String → MatchMode → ReplaceMode → List String :=
  fun _ _ _ _ => []

/-- A matcher that reports the whole candidate as unmatched. -/
def allDifference : List String → List String → MatchMode → ReplaceMode → List String :=
  fun c _ _ _ => c

/-- A device on which executing commands has no observable effect on the
fetched configuration. -/
def idExec : List String → Device → Device := fun _ d => d

/-- A device that appends every pushed command to its running config. -/
def appendExec : List String → Device → Device :=
  fun cmds d => { running := d.running ++ cmds, startup := d.startup }

/-- A save that copies the running config into the startup config. -/
def copySave : Device → Device := fun d => { running := d.running, startup := d.running }

/-- Parameters at their defaults: no candidate, `match=line`, `replace=line`,
`save_when=never`, no diff. -/
def defaultParams : Params :=
  { lines := Option.none, src := Option.none, before := Option.none, after := Option.none
  , matchMode := MatchMode.line, replace := ReplaceMode.line
  , running_config := Option.none, intended_config := Option.none, backup := false
  , save_when := SaveWhen.never, diff_against := Option.none
  , diff_ignore_lines := Option.none }

/-! Helper lemmas about which device interactions each step can emit. -/

theorem pushFetchActions_no_save (p : Params) (cfg0 : Option (List String)) :
    DevAction.saveInteractive ∉ pushFetchActions p cfg0 := by
  unfold pushFetchActions
  split_ifs <;> simp

theorem pushStep_actions_no_save
    (difference : List String → List String → MatchMode → ReplaceMode → List String)
    (exec : List String → Device → Device) (checkMode : Bool) (p : Params)
    (cfg0 : Option (List String)) (dev : Device) :
    DevAction.saveInteractive ∉ (pushStep difference exec checkMode p cfg0 dev).actions := by
  simp only [pushStep, List.mem_append]
  rintro (h | h)
  · exact pushFetchActions_no_save p cfg0 h
  · revert h
    split_ifs <;> simp

theorem diffStep_actions_no_save (checkMode : Bool) (p : Params) (ign : List String)
    (changedIn : Bool) (runningCfg startupCfg configVar : Option (List String)) (dev : Device) :
    DevAction.saveInteractive ∉
      (diffStep checkMode p ign changedIn runningCfg startupCfg configVar dev).actions := by
  simp only [diffStep, List.mem_append]
  rintro (h | h) <;> revert h <;> split_ifs <;> simp

theorem pushFetchActions_no_load (p : Params) (cfg0 : Option (List String))
    (cmds : List String) : DevAction.loadConfig cmds ∉ pushFetchActions p cfg0 := by
  unfold pushFetchActions
  split_ifs <;> simp

theorem saveStep_actions_no_load (checkMode : Bool) (saveEff : Device → Device) (p : Params)
    (ign : List String) (changedIn : Bool) (dev : Device) (cmds : List String) :
    DevAction.loadConfig cmds ∉ (saveStep checkMode saveEff p ign changedIn dev).actions := by
  simp only [saveStep, List.mem_append]
  rintro (h | h) <;> revert h <;> split_ifs <;> simp

theorem diffStep_actions_no_load (checkMode : Bool) (p : Params) (ign : List String)
    (changedIn : Bool) (runningCfg startupCfg configVar : Option (List String)) (dev : Device)
    (cmds : List String) :
    DevAction.loadConfig cmds ∉
      (diffStep checkMode p ign changedIn runningCfg startupCfg configVar dev).actions := by
  simp only [diffStep, List.mem_append]
  rintro (h | h) <;> revert h <;> split_ifs <;> simp

/-! Claim theorems. -/

/-- C10: every invocation of main() fails with a name-resolution error before
any argument validation or device interaction: the very first statement of
`main` reads the name `module`, which is a local of `main` (assigned only
later, by the AnsibleModule construction) and hence unbound at that point;
that first statement is neither the validation statement nor a device
interaction.  Moreover `check_args` is called in the body but is defined
nowhere in the file, and `to_text` (read by the except handler of the first
statement) is likewise absent from the file's globals. -/
theorem C10_main_name_resolution_failure :
    firstFailure fileGlobals mainBody = some (0, "module")
    ∧ (mainBody.head?.map PyStmt.kind) = some StmtKind.other
    ∧ (localNames mainBody).contains "module" = true
    ∧ fileGlobals.contains "check_args" = false
    ∧ "check_args" ∈ (mainBody.map PyStmt.uses).flatten
    ∧ fileGlobals.contains "to_text" = false
    ∧ "to_text" ∈ exceptHandlerUses := by
  decide

/-- C1 (counterexample): the claim "the result's changed flag reflects only
the push step's outcome — the suppressed save alone does not set changed to
true" is false on the code.  With check mode active, `save_when=always` and
no candidate at all (so the push step does nothing: no commands, `changed`
stays false there), the run issues no device command and records the
check-mode warning, yet `save_config` sets `result['changed'] = True`
(source line 209) before testing check mode, so the final `changed` is
true. -/
theorem C1_counterexample :
    (mainRun noDifference idExec copySave true false
        { defaultParams with save_when := SaveWhen.always }
        { running := ["a"], startup := ["a"] }).result.changed = true
    ∧ (mainRun noDifference idExec copySave true false
        { defaultParams with save_when := SaveWhen.always }
        { running := ["a"], startup := ["a"] }).result.commands = Option.none
    ∧ (mainRun noDifference idExec copySave true false
        { defaultParams with save_when := SaveWhen.always }
        { running := ["a"], startup := ["a"] }).actions = []
    ∧ saveWarning ∈ (mainRun noDifference idExec copySave true false
        { defaultParams with save_when := SaveWhen.always }
        { running := ["a"], startup := ["a"] }).result.warnings := by
  decide

/-- C1 (amended): when check mode (dry-run) is active and `save_when=always`,
the run issues no save command to the device and records the user-visible
check-mode warning, but `save_config` sets the result's changed flag to true
before testing check mode, so `changed` is true regardless of the push step's
outcome (matching the module documentation: with `save_when=always` the flag
"will always be set to True"). -/
theorem C1_check_mode_save_always
    (difference : List String → List String → MatchMode → ReplaceMode → List String)
    (exec : List String → Device → Device) (saveEff : Device → Device) (diffMode : Bool)
    (p : Params) (dev0 : Device) (hv : validate p = Option.none)
    (hs : p.save_when = SaveWhen.always) :
    DevAction.saveInteractive ∉ (mainRun difference exec saveEff true diffMode p dev0).actions
    ∧ saveWarning ∈ (mainRun difference exec saveEff true diffMode p dev0).result.warnings
    ∧ (mainRun difference exec saveEff true diffMode p dev0).result.changed = true := by
  simp only [mainRun, hv]
  refine ⟨?_, ?_, ?_⟩
  · simp only [List.mem_append]
    rintro (((h | h) | h) | h)
    · revert h; split_ifs <;> simp
    · exact pushStep_actions_no_save difference exec true p _ dev0 h
    · revert h
      simp only [saveStep, List.mem_append]
      rintro (h | h) <;> revert h <;> split_ifs <;> simp_all
    · revert h
      by_cases hd : diffMode = true
      · subst hd
        simp only [if_pos rfl]
        exact diffStep_actions_no_save true p _ _ _ _ _ _
      · simp only [Bool.not_eq_true] at hd
        subst hd
        simp
  · simp only [saveStep, saveTriggered, hs, List.mem_append]
    left
    simp
  · simp only [saveStep, saveTriggered, hs, diffStep]
    split_ifs <;> simp

theorem C1_check_mode_save_always_witness :
    DevAction.saveInteractive ∉ (mainRun noDifference idExec copySave true false
        { defaultParams with save_when := SaveWhen.always }
        { running := ["a"], startup := ["b"] }).actions
    ∧ saveWarning ∈ (mainRun noDifference idExec copySave true false
        { defaultParams with save_when := SaveWhen.always }
        { running := ["a"], startup := ["b"] }).result.warnings
    ∧ (mainRun noDifference idExec copySave true false
        { defaultParams with save_when := SaveWhen.always }
        { running := ["a"], startup := ["b"] }).result.changed = true :=
  C1_check_mode_save_always noDifference idExec copySave false
    { defaultParams with save_when := SaveWhen.always }
    { running := ["a"], startup := ["b"] } (by decide) rfl

theorem truthy_getD (o : Option (List String)) :
    (if truthy o then o.getD [] else []) = o.getD [] := by
  rcases o with _ | l
  · simp [truthy]
  · rcases l with _ | ⟨x, xs⟩ <;> simp [truthy]

/-- `commands[:0] = before` / `commands.extend(after)` are applied only when
the parameter is truthy, but an absent or empty parameter contributes nothing
either way. -/
theorem assembleCommands_eq (p : Params) (body : List String) :
    assembleCommands p body = p.before.getD [] ++ body ++ p.after.getD [] := by
  unfold assembleCommands
  rw [truthy_getD, truthy_getD]

/-- When the assembled body is empty, the run records no commands/updates,
sends no command stream to the device, and the push step reports no change. -/
theorem mainRun_empty_body
    (difference : List String → List String → MatchMode → ReplaceMode → List String)
    (exec : List String → Device → Device) (saveEff : Device → Device)
    (checkMode diffMode : Bool) (p : Params) (dev0 : Device)
    (hbody : pushBody difference p (preConfig diffMode p dev0) dev0 = []) :
    (mainRun difference exec saveEff checkMode diffMode p dev0).result.commands = Option.none
    ∧ (mainRun difference exec saveEff checkMode diffMode p dev0).result.updates = Option.none
    ∧ (∀ cmds, DevAction.loadConfig cmds ∉
        (mainRun difference exec saveEff checkMode diffMode p dev0).actions)
    ∧ (pushStep difference exec checkMode p (preConfig diffMode p dev0) dev0).changed
        = false := by
  rcases hval : validate p with _ | e
  · simp only [mainRun, hval]
    refine ⟨by simp [pushStep, hbody], by simp [pushStep, hbody], ?_, by simp [pushStep, hbody]⟩
    intro cmds
    simp only [List.mem_append]
    rintro (((h | h) | h) | h)
    · revert h; split_ifs <;> simp
    · revert h
      simp only [pushStep, hbody, if_pos, List.mem_append]
      rintro (h | h)
      · exact pushFetchActions_no_load p _ cmds h
      · simp at h
    · exact saveStep_actions_no_load checkMode saveEff p _ _ _ cmds h
    · revert h
      by_cases hd : diffMode = true
      · subst hd
        simp only [if_pos rfl]
        exact diffStep_actions_no_load checkMode p _ _ _ _ _ _ cmds
      · simp only [Bool.not_eq_true] at hd
        subst hd
        simp
  · simp only [mainRun, hval]
    exact ⟨rfl, rfl, by simp, by simp [pushStep, hbody]⟩

/-- C2: for every run in which the assembled body (the unmatched-lines
result, or the full candidate when match=none) is empty, no commands are
pushed to the device, the before/after command lists are never assembled
around it (the result carries no commands/updates fields at all), and the
push step leaves changed=false. -/
theorem C2_empty_body_no_push
    (difference : List String → List String → MatchMode → ReplaceMode → List String)
    (exec : List String → Device → Device) (saveEff : Device → Device)
    (checkMode diffMode : Bool) (p : Params) (dev0 : Device)
    (hbody : pushBody difference p (preConfig diffMode p dev0) dev0 = []) :
    (mainRun difference exec saveEff checkMode diffMode p dev0).result.commands = Option.none
    ∧ (mainRun difference exec saveEff checkMode diffMode p dev0).result.updates = Option.none
    ∧ (∀ cmds, DevAction.loadConfig cmds ∉
        (mainRun difference exec saveEff checkMode diffMode p dev0).actions)
    ∧ (pushStep difference exec checkMode p (preConfig diffMode p dev0) dev0).changed
        = false :=
  mainRun_empty_body difference exec saveEff checkMode diffMode p dev0 hbody

theorem C2_empty_body_no_push_witness :
    (mainRun noDifference idExec copySave false false
        { defaultParams with lines := some ["set x"] }
        { running := ["set x"], startup := [] }).result.commands = Option.none
    ∧ DevAction.loadConfig ["set x"] ∉ (mainRun noDifference idExec copySave false false
        { defaultParams with lines := some ["set x"] }
        { running := ["set x"], startup := [] }).actions
    ∧ (pushStep noDifference idExec false { defaultParams with lines := some ["set x"] }
        (preConfig false { defaultParams with lines := some ["set x"] }
          { running := ["set x"], startup := [] })
        { running := ["set x"], startup := [] }).changed = false := by
  have h := C2_empty_body_no_push noDifference idExec copySave false false
    { defaultParams with lines := some ["set x"] }
    { running := ["set x"], startup := [] } (by decide)
  exact ⟨h.1, h.2.2.1 ["set x"], h.2.2.2⟩

/-- C3: for every candidate and every baseline, when match=none the assembled
body equals the full candidate line sequence in its original order,
independent of the matcher, the cached snapshot and the device baseline, and
no running-config fetch for comparison is performed. -/
theorem C3_match_none_full_candidate
    (difference₁ difference₂ : List String → List String → MatchMode → ReplaceMode → List String)
    (p : Params) (cfg0 cfg0' : Option (List String)) (dev dev' : Device)
    (hm : p.matchMode = MatchMode.none)
    (hp : (truthy p.lines || p.src.isSome) = true) :
    pushBody difference₁ p cfg0 dev = get_candidate p
    ∧ pushBody difference₁ p cfg0 dev = pushBody difference₂ p cfg0' dev'
    ∧ pushFetchActions p cfg0 = [] := by
  unfold pushBody pushFetchActions
  simp [hm, hp]

theorem C3_match_none_full_candidate_witness :
    pushBody allDifference { defaultParams with lines := some ["b", "a"], matchMode := MatchMode.none } Option.none { running := ["z"], startup := [] }
      = get_candidate { defaultParams with lines := some ["b", "a"], matchMode := MatchMode.none }
    ∧ pushBody allDifference { defaultParams with lines := some ["b", "a"], matchMode := MatchMode.none } Option.none { running := ["z"], startup := [] }
      = pushBody noDifference { defaultParams with lines := some ["b", "a"], matchMode := MatchMode.none } (some ["q"]) { running := ["w"], startup := ["v"] }
    ∧ pushFetchActions { defaultParams with lines := some ["b", "a"], matchMode := MatchMode.none } Option.none = [] :=
  C3_match_none_full_candidate allDifference noDifference
    { defaultParams with lines := some ["b", "a"], matchMode := MatchMode.none }
    Option.none (some ["q"]) { running := ["z"], startup := [] }
    { running := ["w"], startup := ["v"] } rfl (by decide)

/-- C4: whenever a push occurs under replace=line, the final command stream
equals the concatenation before ++ body ++ after in exactly that order, where
the body is exactly the unmatched-lines sequence returned by the matcher
(candidate line order preserved by the matcher contract), and that same
stream is what `load_config` sends to the device. -/
theorem C4_replace_line_stream
    (difference : List String → List String → MatchMode → ReplaceMode → List String)
    (exec : List String → Device → Device) (p : Params) (cfg0 : Option (List String))
    (dev : Device)
    (hr : p.replace = ReplaceMode.line)
    (hm : p.matchMode ≠ MatchMode.none)
    (hp : (truthy p.lines || p.src.isSome) = true)
    (hb : difference (get_candidate p) (matchBase p cfg0 dev) p.matchMode p.replace ≠ []) :
    (pushStep difference exec false p cfg0 dev).body
      = difference (get_candidate p) (matchBase p cfg0 dev) p.matchMode p.replace
    ∧ (pushStep difference exec false p cfg0 dev).commands
      = some (p.before.getD []
          ++ difference (get_candidate p) (matchBase p cfg0 dev) p.matchMode p.replace
          ++ p.after.getD [])
    ∧ DevAction.loadConfig (p.before.getD []
          ++ difference (get_candidate p) (matchBase p cfg0 dev) p.matchMode p.replace
          ++ p.after.getD [])
        ∈ (pushStep difference exec false p cfg0 dev).actions := by
  have hbody : pushBody difference p cfg0 dev
      = difference (get_candidate p) (matchBase p cfg0 dev) p.matchMode p.replace := by
    unfold pushBody
    simp [hm, hp]
  have hcmds : assembleCommands p (pushBody difference p cfg0 dev)
      = p.before.getD []
        ++ difference (get_candidate p) (matchBase p cfg0 dev) p.matchMode p.replace
        ++ p.after.getD [] := by
    rw [assembleCommands_eq, hbody]
  have hcne : assembleCommands p (pushBody difference p cfg0 dev) ≠ [] := by
    rw [hcmds]
    intro h
    rcases List.append_eq_nil.mp h with ⟨h1, -⟩
    rcases List.append_eq_nil.mp h1 with ⟨-, h3⟩
    exact hb h3
  refine ⟨?_, ?_, ?_⟩
  · simp only [pushStep]
    exact hbody
  · simp only [pushStep, hbody, if_neg hb]
    rw [assembleCommands_eq]
  · simp only [pushStep, hbody, if_neg hb, Bool.false_eq_true, if_false]
    rw [if_neg (hbody ▸ hcne)]
    simp only [List.mem_append, List.mem_singleton]
    right
    rw [assembleCommands_eq]

theorem C4_replace_line_stream_witness :
    (pushStep allDifference appendExec false { defaultParams with lines := some ["set a"], before := some ["pre"], after := some ["post"] } Option.none { running := [], startup := [] }).commands
      = some (["pre"] ++ ["set a"] ++ ["post"])
    ∧ DevAction.loadConfig (["pre"] ++ ["set a"] ++ ["post"])
        ∈ (pushStep allDifference appendExec false { defaultParams with lines := some ["set a"], before := some ["pre"], after := some ["post"] } Option.none { running := [], startup := [] }).actions := by
  have h := C4_replace_line_stream allDifference appendExec
    { defaultParams with lines := some ["set a"], before := some ["pre"], after := some ["post"] }
    Option.none { running := [], startup := [] }
    rfl (by decide) (by decide) (by decide)
  exact ⟨h.2.1, h.2.2⟩

/-- Under `save_when` never or changed with an unchanged push step, the save
block leaves the changed flag false. -/
theorem saveStep_changed_policy (checkMode : Bool) (saveEff : Device → Device) (p : Params)
    (ign : List String) (dev : Device)
    (hs : p.save_when = SaveWhen.never ∨ p.save_when = SaveWhen.changed) :
    (saveStep checkMode saveEff p ign false dev).changed = false := by
  rcases hs with h | h <;> simp [saveStep, saveTriggered, h]

/-- C5: when save_when=modified (and not in check mode), the run fetches both
the running and the startup configuration fresh from the device after the
push step — the fingerprint comparison is over the post-push device state
`(pushStep ...).dev`, not over any earlier cached snapshot — applies the
configured ignore-patterns to both, and issues the save command if and only
if the two resulting fingerprints differ. -/
theorem C5_save_modified_fresh
    (difference : List String → List String → MatchMode → ReplaceMode → List String)
    (exec : List String → Device → Device) (saveEff : Device → Device) (diffMode : Bool)
    (p : Params) (dev0 : Device) (hv : validate p = Option.none)
    (hs : p.save_when = SaveWhen.modified) :
    (DevAction.saveInteractive ∈ (mainRun difference exec saveEff false diffMode p dev0).actions
      ↔ filterIgnore (p.diff_ignore_lines.getD [])
          (pushStep difference exec false p (preConfig diffMode p dev0) dev0).dev.running
        ≠ filterIgnore (p.diff_ignore_lines.getD [])
          (pushStep difference exec false p (preConfig diffMode p dev0) dev0).dev.startup)
    ∧ DevAction.getConfig "running"
        ∈ (saveStep false saveEff p (p.diff_ignore_lines.getD [])
            (pushStep difference exec false p (preConfig diffMode p dev0) dev0).changed
            (pushStep difference exec false p (preConfig diffMode p dev0) dev0).dev).actions
    ∧ DevAction.getConfig "startup"
        ∈ (saveStep false saveEff p (p.diff_ignore_lines.getD [])
            (pushStep difference exec false p (preConfig diffMode p dev0) dev0).changed
            (pushStep difference exec false p (preConfig diffMode p dev0) dev0).dev).actions := by
  refine ⟨?_, by simp [saveStep, hs], by simp [saveStep, hs]⟩
  simp only [mainRun, hv]
  constructor
  · intro h
    by_cases he : filterIgnore (p.diff_ignore_lines.getD [])
        (pushStep difference exec false p (preConfig diffMode p dev0) dev0).dev.running
      = filterIgnore (p.diff_ignore_lines.getD [])
        (pushStep difference exec false p (preConfig diffMode p dev0) dev0).dev.startup
    · exfalso
      simp only [List.mem_append] at h
      rcases h with ((h | h) | h) | h
      · revert h; split_ifs <;> simp
      · exact pushStep_actions_no_save difference exec false p _ dev0 h
      · revert h
        simp [saveStep, saveTriggered, hs, he]
      · revert h
        by_cases hd : diffMode = true
        · subst hd
          simp only [if_pos rfl]
          exact diffStep_actions_no_save false p _ _ _ _ _ _
        · simp only [Bool.not_eq_true] at hd
          subst hd
          simp
    · exact he
  · intro hne
    simp only [List.mem_append]
    left; right
    simp [saveStep, saveTriggered, hs, if_neg hne]

theorem C5_save_modified_fresh_witness :
    (DevAction.saveInteractive ∈ (mainRun allDifference appendExec copySave false false
        { defaultParams with lines := some ["set b"], matchMode := MatchMode.none, save_when := SaveWhen.modified }
        { running := ["set a"], startup := ["set a"] }).actions
      ↔ filterIgnore [] (pushStep allDifference appendExec false
          { defaultParams with lines := some ["set b"], matchMode := MatchMode.none, save_when := SaveWhen.modified }
          (preConfig false { defaultParams with lines := some ["set b"], matchMode := MatchMode.none, save_when := SaveWhen.modified } { running := ["set a"], startup := ["set a"] })
          { running := ["set a"], startup := ["set a"] }).dev.running
        ≠ filterIgnore [] (pushStep allDifference appendExec false
          { defaultParams with lines := some ["set b"], matchMode := MatchMode.none, save_when := SaveWhen.modified }
          (preConfig false { defaultParams with lines := some ["set b"], matchMode := MatchMode.none, save_when := SaveWhen.modified } { running := ["set a"], startup := ["set a"] })
          { running := ["set a"], startup := ["set a"] }).dev.startup)
    ∧ DevAction.saveInteractive ∈ (mainRun allDifference appendExec copySave false false
        { defaultParams with lines := some ["set b"], matchMode := MatchMode.none, save_when := SaveWhen.modified }
        { running := ["set a"], startup := ["set a"] }).actions := by
  have h := C5_save_modified_fresh allDifference appendExec copySave false
    { defaultParams with lines := some ["set b"], matchMode := MatchMode.none, save_when := SaveWhen.modified }
    { running := ["set a"], startup := ["set a"] } (by decide) rfl
  exact ⟨h.1, h.1.mpr (by decide)⟩

/-- C6: when the diff block runs and the post-filter fingerprints of running
and baseline are equal, no diff is reported and changed keeps its previously
computed value; when they differ, changed is forced to true and the reported
diff is oriented before=running/after=baseline for diff_against=intended and
before=baseline/after=running for diff_against=startup or
diff_against=running. -/
theorem C6_diff_fingerprint_orientation (checkMode : Bool) (p : Params) (ign : List String)
    (changedIn : Bool) (runningCfg startupCfg configVar : Option (List String)) (dev : Device)
    (bt : List String)
    (hbase : diffBaseText checkMode p (diffRunText runningCfg dev) startupCfg configVar dev
      = some bt) :
    (filterIgnore ign (diffRunText runningCfg dev) = filterIgnore ign bt →
      (diffStep checkMode p ign changedIn runningCfg startupCfg configVar dev).diff
        = Option.none
      ∧ (diffStep checkMode p ign changedIn runningCfg startupCfg configVar dev).changed
        = changedIn)
    ∧ (filterIgnore ign (diffRunText runningCfg dev) ≠ filterIgnore ign bt →
      (diffStep checkMode p ign changedIn runningCfg startupCfg configVar dev).changed = true
      ∧ (p.diff_against = some DiffAgainst.intended →
          (diffStep checkMode p ign changedIn runningCfg startupCfg configVar dev).diff
            = some (filterIgnore ign (diffRunText runningCfg dev), filterIgnore ign bt))
      ∧ ((p.diff_against = some DiffAgainst.startup
            ∨ p.diff_against = some DiffAgainst.running) →
          (diffStep checkMode p ign changedIn runningCfg startupCfg configVar dev).diff
            = some (filterIgnore ign bt, filterIgnore ign (diffRunText runningCfg dev)))) := by
  have hrep : diffReports checkMode p ign runningCfg startupCfg configVar dev
      = if filterIgnore ign (diffRunText runningCfg dev) = filterIgnore ign bt then false
        else true := by
    unfold diffReports
    rw [hbase]
  constructor
  · intro heq
    have h0 : diffReports checkMode p ign runningCfg startupCfg configVar dev = false := by
      rw [hrep, if_pos heq]
    exact ⟨by simp [diffStep, h0], by simp [diffStep, h0]⟩
  · intro hne
    have h1 : diffReports checkMode p ign runningCfg startupCfg configVar dev = true := by
      rw [hrep, if_neg hne]
    refine ⟨by simp [diffStep, h1], ?_, ?_⟩
    · intro hi
      simp [diffStep, h1, hi, hbase]
    · rintro (hd | hd) <;> simp [diffStep, h1, hd, hbase]

theorem C6_diff_fingerprint_orientation_witness :
    (diffStep false { defaultParams with diff_against := some DiffAgainst.intended, intended_config := some ["a", "c"] } [] false Option.none Option.none Option.none { running := ["a", "b"], startup := [] }).changed = true
    ∧ (diffStep false { defaultParams with diff_against := some DiffAgainst.intended, intended_config := some ["a", "c"] } [] false Option.none Option.none Option.none { running := ["a", "b"], startup := [] }).diff
      = some (["a", "b"], ["a", "c"]) := by
  have h := C6_diff_fingerprint_orientation false
    { defaultParams with diff_against := some DiffAgainst.intended, intended_config := some ["a", "c"] }
    [] false Option.none Option.none Option.none { running := ["a", "b"], startup := [] }
    ["a", "c"] (by decide)
  have h2 := h.2 (by decide)
  exact ⟨h2.1, h2.2.1 (by decide)⟩

/-- C7: when diff_against=running is requested under check mode, the run
records the warning that the running diff is unavailable, produces no diff in
the result, and does not abort — no validation error is raised and the result
record is produced normally. -/
theorem C7_running_diff_check_mode
    (difference : List String → List String → MatchMode → ReplaceMode → List String)
    (exec : List String → Device → Device) (saveEff : Device → Device) (p : Params)
    (dev0 : Device) (hv : validate p = Option.none)
    (hda : p.diff_against = some DiffAgainst.running) :
    (mainRun difference exec saveEff true true p dev0).error = Option.none
    ∧ diffWarning ∈ (mainRun difference exec saveEff true true p dev0).result.warnings
    ∧ (mainRun difference exec saveEff true true p dev0).result.diff = Option.none := by
  simp only [mainRun, hv]
  refine ⟨trivial, ?_, ?_⟩
  · simp [diffStep, hda, List.mem_append]
  · simp [diffStep, diffReports, diffBaseText, hda]

theorem C7_running_diff_check_mode_witness :
    (mainRun allDifference appendExec copySave true true { defaultParams with diff_against := some DiffAgainst.running } { running := ["a"], startup := ["b"] }).error = Option.none
    ∧ diffWarning ∈ (mainRun allDifference appendExec copySave true true { defaultParams with diff_against := some DiffAgainst.running } { running := ["a"], startup := ["b"] }).result.warnings
    ∧ (mainRun allDifference appendExec copySave true true { defaultParams with diff_against := some DiffAgainst.running } { running := ["a"], startup := ["b"] }).result.diff = Option.none :=
  C7_running_diff_check_mode allDifference appendExec copySave
    { defaultParams with diff_against := some DiffAgainst.running }
    { running := ["a"], startup := ["b"] } (by decide) rfl

/-- C8: for every input where mutually exclusive or jointly required options
are violated — both lines and src supplied; match strict/exact or
replace=block without lines; diff_against=intended without intended_config —
the run aborts with an input-conflict error before any device interaction
occurs (the action trace is empty) and with no side effects on the device
(the device state is unchanged). -/
theorem C8_input_conflict_aborts
    (difference : List String → List String → MatchMode → ReplaceMode → List String)
    (exec : List String → Device → Device) (saveEff : Device → Device)
    (checkMode diffMode : Bool) (p : Params) (dev0 : Device)
    (hbad : (p.lines.isSome ∧ p.src.isSome)
      ∨ (p.matchMode = MatchMode.strict ∧ p.lines = Option.none)
      ∨ (p.matchMode = MatchMode.exact ∧ p.lines = Option.none)
      ∨ (p.replace = ReplaceMode.block ∧ p.lines = Option.none)
      ∨ (p.diff_against = some DiffAgainst.intended ∧ p.intended_config = Option.none)) :
    (∃ e, (mainRun difference exec saveEff checkMode diffMode p dev0).error = some e)
    ∧ (mainRun difference exec saveEff checkMode diffMode p dev0).actions = []
    ∧ (mainRun difference exec saveEff checkMode diffMode p dev0).devFinal = dev0 := by
  have hv : ∃ e, validate p = some e := by
    unfold validate
    rcases hbad with h | h | h | h | h <;>
      split_ifs <;> first | exact ⟨_, rfl⟩ | tauto
  rcases hv with ⟨e, he⟩
  refine ⟨⟨e, ?_⟩, ?_, ?_⟩ <;> simp [mainRun, he]

theorem C8_input_conflict_aborts_witness :
    (∃ e, (mainRun allDifference appendExec copySave false false { defaultParams with replace := ReplaceMode.block } { running := ["a"], startup := ["b"] }).error = some e)
    ∧ (mainRun allDifference appendExec copySave false false { defaultParams with replace := ReplaceMode.block } { running := ["a"], startup := ["b"] }).actions = []
    ∧ (mainRun allDifference appendExec copySave false false { defaultParams with replace := ReplaceMode.block } { running := ["a"], startup := ["b"] }).devFinal = { running := ["a"], startup := ["b"] } :=
  C8_input_conflict_aborts allDifference appendExec copySave false false
    { defaultParams with replace := ReplaceMode.block }
    { running := ["a"], startup := ["b"] } (by decide)

/-- C9: idempotence — for match in line/strict/exact, with the persistence
policy at its default (`never`, or `changed`) and diff reporting off, if a
second run is performed with the same parameters on the device state left by
the first run and the matcher finds nothing unmatched there (device
converged), the second run reports changed=false, carries no commands, and
pushes nothing to the device. -/
theorem C9_idempotent_second_run
    (difference : List String → List String → MatchMode → ReplaceMode → List String)
    (exec : List String → Device → Device) (saveEff : Device → Device) (p : Params)
    (dev0 : Device)
    (hm : p.matchMode = MatchMode.line ∨ p.matchMode = MatchMode.strict
      ∨ p.matchMode = MatchMode.exact)
    (hs : p.save_when = SaveWhen.never ∨ p.save_when = SaveWhen.changed)
    (hconv : difference (get_candidate p)
        (matchBase p
          (preConfig false p ((mainRun difference exec saveEff false false p dev0).devFinal))
          ((mainRun difference exec saveEff false false p dev0).devFinal))
        p.matchMode p.replace = []) :
    (mainRun difference exec saveEff false false p
        ((mainRun difference exec saveEff false false p dev0).devFinal)).result.changed = false
    ∧ (mainRun difference exec saveEff false false p
        ((mainRun difference exec saveEff false false p dev0).devFinal)).result.commands
      = Option.none
    ∧ (∀ cmds, DevAction.loadConfig cmds ∉
        (mainRun difference exec saveEff false false p
          ((mainRun difference exec saveEff false false p dev0).devFinal)).actions) := by
  set dev1 := (mainRun difference exec saveEff false false p dev0).devFinal with hdev1
  have hbody : pushBody difference p (preConfig false p dev1) dev1 = [] := by
    have hmn : p.matchMode ≠ MatchMode.none := by
      rcases hm with h | h | h <;> simp [h]
    unfold pushBody
    simp only [hmn, if_false]
    rw [hconv]
    simp
  have hmain := mainRun_empty_body difference exec saveEff false false p dev1 hbody
  refine ⟨?_, hmain.1, hmain.2.2.1⟩
  rcases hval : validate p with _ | e
  · have hpo := hmain.2.2.2
    simp only [mainRun, hval]
    simp only [Bool.false_eq_true, if_false]
    rw [hpo]
    exact saveStep_changed_policy false saveEff p _ _ hs
  · simp [mainRun, hval, emptyResult]

theorem C9_idempotent_second_run_witness :
    (mainRun noDifference appendExec copySave false false { defaultParams with lines := some ["set a"] } ((mainRun noDifference appendExec copySave false false { defaultParams with lines := some ["set a"] } { running := ["set a"], startup := [] }).devFinal)).result.changed = false
    ∧ (mainRun noDifference appendExec copySave false false { defaultParams with lines := some ["set a"] } ((mainRun noDifference appendExec copySave false false { defaultParams with lines := some ["set a"] } { running := ["set a"], startup := [] }).devFinal)).result.commands = Option.none := by
  have h := C9_idempotent_second_run noDifference appendExec copySave
    { defaultParams with lines := some ["set a"] } { running := ["set a"], startup := [] }
    (Or.inl rfl) (Or.inl rfl) (by decide)
  exact ⟨h.1, h.2.1⟩

end ExosConfig
